import Mathlib

/-!
Shallow embedding of the usage-log panel of bayma888/bmai-tools
(src/src/components/usage/UsageLogPanel.tsx and the usageLog API wrapper),
together with theorems settling the specification claims.

JavaScript dynamic values (the provider `settingsConfig` blob and everything
`JSON.parse` can produce) are embedded as the inductive `JsonVal`; numbers are
embedded as exact rationals. `JSON.parse`/`invoke` are external collaborators
and enter as function parameters.
-/

/-- A JavaScript/JSON value, as manipulated by `extractApiKey`. -/
inductive JsonVal where
  | null : JsonVal
  | bool : Bool → JsonVal
  | num : ℚ → JsonVal
  | str : String → JsonVal
  | arr : List JsonVal → JsonVal
  | obj : List (String × JsonVal) → JsonVal

/-- JavaScript falsiness of a value (`!v` truth table): `null`, `false`,
`0` and `""` are falsy; arrays and objects are always truthy. -/
def jsFalsy : JsonVal → Bool
  | JsonVal.null => true
  | JsonVal.bool b => !b
  | JsonVal.num q => q == 0
  | JsonVal.str s => s == ""
  | JsonVal.arr _ => false
  | JsonVal.obj _ => false

/-- Property access `v.key` (with `?.` short-circuiting): defined on objects,
`undefined` (i.e. `none`) on every other value. -/
def jsGet (v : JsonVal) (key : String) : Option JsonVal :=
  match v with
  | JsonVal.obj fields => fields.lookup key
  | _ => none

/-- `v?.key ?? {}`: the property when present and non-null, else the empty
object (the `??` operator replaces both `undefined` and `null`). -/
def jsGetOr (v : JsonVal) (key : String) : JsonVal :=
  match jsGet v key with
  | some JsonVal.null => JsonVal.obj []
  | some x => x
  | none => JsonVal.obj []

/-- The slice of the host `Provider` record that the panel reads.
`settingsConfig` is an arbitrary JS value (possibly a JSON-encoded string). -/
structure Provider where
  name : String
  websiteUrl : Option String
  settingsConfig : Option JsonVal

/-- `typeof settingsConfig === "string" ? JSON.parse(settingsConfig) : settingsConfig`,
with `JSON.parse` abstracted as `parseJson` (failure = the parse threw). -/
def resolveConfig (parseJson : String → Option JsonVal) (sc : JsonVal) : Option JsonVal :=
  match sc with
  | JsonVal.str s => parseJson s
  | v => some v

/-- `extractApiKey` from UsageLogPanel.tsx, lines 39-69. -/
def extractApiKey (parseJson : String → Option JsonVal)
    (provider : Option Provider) (appId : String) : String :=
  match provider with
  | none => ""
  | some p =>
    match p.settingsConfig with
    | none => ""
    | some sc =>
      if jsFalsy sc then ""
      else
        match resolveConfig parseJson sc with
        | none => ""
        | some config =>
          let env := jsGetOr config "env"
          if appId = "gemini" then
            match jsGet env "GEMINI_API_KEY" with
            | some (JsonVal.str s) => s
            | _ => ""
          else if appId = "codex" then
            let auth := jsGetOr config "auth"
            match jsGet auth "OPENAI_API_KEY" with
            | some (JsonVal.str s) => s
            | _ => ""
          else
            match jsGet env "ANTHROPIC_AUTH_TOKEN" with
            | some (JsonVal.str s) => s
            | _ =>
              match jsGet env "ANTHROPIC_API_KEY" with
              | some (JsonVal.str s) => s
              | _ => ""

/-- Per-model cost breakdown (`costs` field of ModelStatsItem). -/
structure ModelCosts where
  input : ℚ
  output : ℚ
  cacheWrite : ℚ
  cacheRead : ℚ
  total : ℚ
deriving DecidableEq

/-- Pre-formatted display strings (`formatted` field of ModelStatsItem). -/
structure ModelFormatted where
  input : String
  output : String
  cacheWrite : String
  cacheRead : String
  total : String
deriving DecidableEq

/-- Unit pricing (`pricing` field of ModelStatsItem). -/
structure ModelPricing where
  input : ℚ
  output : ℚ
  cacheWrite : ℚ
  cacheRead : ℚ
deriving DecidableEq

/-- One model's usage for the period (usageLog.ts, `ModelStatsItem`). -/
structure ModelStatsItem where
  model : String
  requests : ℚ
  inputTokens : ℚ
  outputTokens : ℚ
  cacheCreateTokens : ℚ
  cacheReadTokens : ℚ
  allTokens : ℚ
  costs : ModelCosts
  formatted : ModelFormatted
  pricing : ModelPricing
deriving DecidableEq

/-- `pat` matches at the head of `hay` (character-list strings). -/
def charsStart : List Char → List Char → Bool
  | [], _ => true
  | _ :: _, [] => false
  | p :: ps, h :: hs => p == h && charsStart ps hs

/-- `pat` occurs as a contiguous substring of `hay`. -/
def charsContain (pat : List Char) : List Char → Bool
  | [] => pat.isEmpty
  | c :: hs => charsStart pat (c :: hs) || charsContain pat hs

/-- JavaScript `hay.includes(pat)`. -/
def strIncludes (hay pat : String) : Bool :=
  charsContain pat.data hay.data

/-- JavaScript `s.toLowerCase()` (characterwise lowering). -/
def strToLower (s : String) : String :=
  String.mk (s.data.map Char.toLower)

/-- The predicate of the `models` filter (UsageLogPanel.tsx, lines 208-214):
which model identifiers are kept for a given appId. -/
def appKeep (appId : String) (m : ModelStatsItem) : Bool :=
  let model := strToLower m.model
  if appId = "claude" then
    strIncludes model "claude" || strIncludes model "anthropic" ||
      strIncludes model "sonnet" || strIncludes model "opus" ||
      strIncludes model "haiku"
  else if appId = "codex" then
    strIncludes model "gpt" || strIncludes model "o1" ||
      strIncludes model "o3" || strIncludes model "o4"
  else if appId = "gemini" then
    strIncludes model "gemini"
  else
    true

/-- The `models` computation (spec name `filterModelsForApp`): filter the
per-model stats down to the current appId. -/
def filterModelsForApp (allModels : List ModelStatsItem) (appId : String) :
    List ModelStatsItem :=
  allModels.filter (appKeep appId)

/-- The derived period aggregate (spec type `PeriodUsage`). -/
structure PeriodUsage where
  requests : ℚ
  inputTokens : ℚ
  outputTokens : ℚ
  cacheCreateTokens : ℚ
  cacheReadTokens : ℚ
  allTokens : ℚ
  cost : ℚ
deriving DecidableEq

/-- The reducer body of the `periodUsage` computation (lines 219-227). -/
def periodUsageStep (acc : PeriodUsage) (m : ModelStatsItem) : PeriodUsage :=
  { requests := acc.requests + m.requests
    inputTokens := acc.inputTokens + m.inputTokens
    outputTokens := acc.outputTokens + m.outputTokens
    cacheCreateTokens := acc.cacheCreateTokens + m.cacheCreateTokens
    cacheReadTokens := acc.cacheReadTokens + m.cacheReadTokens
    allTokens := acc.allTokens + m.allTokens
    cost := acc.cost + m.costs.total }

/-- The reducer's initial accumulator (line 228). -/
def periodUsageZero : PeriodUsage :=
  { requests := 0, inputTokens := 0, outputTokens := 0, cacheCreateTokens := 0
    cacheReadTokens := 0, allTokens := 0, cost := 0 }

/-- The `periodUsage` computation (spec name `aggregatePeriodUsage`),
lines 217-230: `null` on an empty filtered list, else the reduced sums. -/
def periodUsage (models : List ModelStatsItem) : Option PeriodUsage :=
  if 0 < models.length then some (models.foldl periodUsageStep periodUsageZero)
  else none

/-- Fuel-bounded base-2 logarithm by halving (any fuel ≥ n is exact). -/
def natLog2Fuel : ℕ → ℕ → ℕ
  | 0, _ => 0
  | fuel + 1, n => if 2 ≤ n then natLog2Fuel fuel (n / 2) + 1 else 0

/-- `⌊log₂ n⌋` for `1 ≤ n` (and 0 on 0). -/
def natLog2 (n : ℕ) : ℕ := natLog2Fuel n n

/-- Round the fraction `a / b` (with `b ≠ 0`) to the nearest natural, ties
to even — the IEEE-754 default rounding of a significand. -/
def natRoundEven (a b : ℕ) : ℕ :=
  let fl := a / b
  let r := a % b
  if 2 * r < b then fl
  else if b < 2 * r then fl + 1
  else if fl % 2 = 0 then fl else fl + 1

/-- Round the fraction `a / b` (with `b ≠ 0`) to the nearest natural, with a
tie going to the larger integer — the rounding ES `toFixed` prescribes. -/
def natRoundUp (a b : ℕ) : ℕ :=
  let fl := a / b
  if 2 * (a % b) < b then fl else fl + 1

/-- The IEEE binary64 value of the JS division `v / den`, for naturals with
`1 ≤ den ≤ v` (quotient ≥ 1, so no subnormals; no overflow below the binade
of 2^1024): returned as a significand/exponent pair `(m, e)` whose value is
`m * 2^(e-52)`, where `e` is the binade exponent `2^e ≤ v/den < 2^(e+1)` and
`m` is the quotient scaled into `[2^52, 2^53)` and rounded to nearest, ties
to even (a carry to `2^53` still denotes the correct value). -/
def doubleOfDiv (v den : ℕ) : ℕ × ℕ :=
  let e := natLog2 (v / den)
  let m :=
    if e ≤ 52 then natRoundEven (v * 2 ^ (52 - e)) den
    else natRoundEven v (den * 2 ^ (e - 52))
  (m, e)

/-- The integer `n` of ES `Number.prototype.toFixed(f)` applied to the
nonnegative double `m * 2^(e-52)` (below the 10^21 scientific-notation
fallback): `n / 10^f` is as close as possible to the double's value, and
when two integers are equally close the larger is taken. -/
def toFixedOfDouble (m e f : ℕ) : ℕ :=
  if e ≤ 52 then natRoundUp (m * 10 ^ f) (2 ^ (52 - e))
  else m * 10 ^ f * 2 ^ (e - 52)

/-- Two-digit zero-padding of a fractional part below 100. -/
def padFrac2 (f : Nat) : String :=
  if f < 10 then "0" ++ toString f else toString f

/-- `(v / den).toFixed(2)` as JS computes it for an exactly representable
natural `v` and positive divisor `den ≤ v`: the quotient is first rounded to
the nearest double, then that double is rendered with two decimals. -/
def fixed2 (v den : Nat) : String :=
  let d := doubleOfDiv v den
  let r := toFixedOfDouble d.1 d.2 2
  toString (r / 100) ++ "." ++ padFrac2 (r % 100)

/-- `(v / den).toFixed(1)` as JS computes it for an exactly representable
natural `v` and positive divisor `den ≤ v`. -/
def fixed1 (v den : Nat) : String :=
  let d := doubleOfDiv v den
  let r := toFixedOfDouble d.1 d.2 1
  toString (r / 10) ++ "." ++ toString (r % 10)

/-- `formatTokens` (spec name `formatTokenCount`), UsageLogPanel.tsx lines
189-194, on integral token counts (a count below `2 ^ 53` is exactly a
double, so the branch comparisons are exact and the renderings below
reproduce `toFixed` on the divided double). -/
def formatTokens (n : Option Nat) : String :=
  match n with
  | none => "-"
  | some v =>
    if 1000000 ≤ v then fixed2 v 1000000 ++ "M"
    else if 1000 ≤ v then fixed1 v 1000 ++ "K"
    else toString v

/-- `calcProgress` (spec name `computeProgressPercent`), lines 196-199:
optional arguments model `undefined`, and `0` is falsy. -/
def calcProgress (current limit : Option ℚ) : ℚ :=
  match current, limit with
  | some c, some l => if c = 0 then 0 else if l = 0 then 0 else min (c / l * 100) 100
  | _, _ => 0

/-- Overview limits block (usageLog.ts, `UsageLogData.limits`). -/
structure UsageLimits where
  concurrencyLimit : Option ℚ
  dailyCostLimit : Option ℚ
  totalCostLimit : Option ℚ
  currentDailyCost : Option ℚ
  currentTotalCost : Option ℚ
  weeklyOpusCost : Option ℚ

/-- `UsageLogData.usage.total` (usageLog.ts). -/
structure UsageTotals where
  requests : Option ℚ
  inputTokens : Option ℚ
  outputTokens : Option ℚ
  cacheCreateTokens : Option ℚ
  cacheReadTokens : Option ℚ
  allTokens : Option ℚ
  cost : Option ℚ
  formattedCost : Option String

/-- `UsageLogData.usage` (usageLog.ts). -/
structure UsageOuter where
  total : Option UsageTotals

/-- `UsageLogData.accounts` (usageLog.ts). -/
structure UsageAccounts where
  claudeAccountId : Option String
  geminiAccountId : Option String
  openaiAccountId : Option String

/-- Overview payload of the usage query (usageLog.ts, `UsageLogData`). -/
structure UsageLogData where
  name : Option String
  id : String
  isActive : Bool
  createdAt : String
  expiresAt : Option String
  description : Option String
  usage : Option UsageOuter
  limits : Option UsageLimits
  accounts : Option UsageAccounts

/-- Result envelope of the overview query (usageLog.ts, `UsageLogResult`). -/
structure UsageLogResult where
  success : Bool
  data : Option UsageLogData
  error : Option String

/-- Result envelope of the per-model query (usageLog.ts, `ModelStatsResult`). -/
structure ModelStatsResult where
  success : Bool
  data : Option (List ModelStatsItem)
  period : Option String
  error : Option String

/-- The panel's remote-query state: the `isLoading`, `result` and
`modelStats` useState cells of UsageLogPanel. -/
structure QueryState where
  isLoading : Bool
  result : Option UsageLogResult
  modelStats : Option ModelStatsResult

/-- Outcome of the `Promise.all` pair awaited by `handleQuery`: both wrapper
calls resolved (with their result records), or the combined promise rejected
(with the stringified cause). -/
inductive FetchOutcome where
  | resolved : UsageLogResult → ModelStatsResult → FetchOutcome
  | rejected : String → FetchOutcome

/-- JavaScript `s.trim()`: strip whitespace from both ends. -/
def strTrim (s : String) : String :=
  String.mk
    (((s.data.dropWhile Char.isWhitespace).reverse.dropWhile
        Char.isWhitespace).reverse)

/-- `handleQuery` (UsageLogPanel.tsx, lines 117-137) as a state transition on
the query state, given the outcome of the awaited pair: a blank key returns
early; resolution stores both records as received; rejection stores a
failure record and clears the per-model stats. -/
def handleQuery (apiKey : String) (outcome : FetchOutcome)
    (st : QueryState) : QueryState :=
  if strTrim apiKey = "" then st
  else
    match outcome with
    | FetchOutcome.resolved u m =>
      { isLoading := false, result := some u, modelStats := some m }
    | FetchOutcome.rejected e =>
      { isLoading := false
        result := some { success := false, data := none, error := some e }
        modelStats := none }

/-- The error branch of the render (line 247): shown when not loading and the
stored overview result exists with `success = false`. -/
def errorShown (st : QueryState) : Bool :=
  !st.isLoading &&
    (match st.result with
     | some r => !r.success
     | none => false)

/-- The data branch of the render (line 295): shown when not loading and the
stored overview result succeeded with a data payload. -/
def dataShown (st : QueryState) : Bool :=
  !st.isLoading &&
    (match st.result with
     | some r => r.success && (match r.data with | some _ => true | none => false)
     | none => false)

/-- `allModels = modelStats?.data ?? []` (line 202). -/
def panelAllModels (st : QueryState) : List ModelStatsItem :=
  match st.modelStats with
  | some ms => ms.data.getD []
  | none => []

/-- The argument record the wrappers pass to the Tauri `invoke` call. -/
structure InvokeArgs where
  apiKey : String
  baseUrl : Option String
  period : String
deriving DecidableEq

/-- The arguments built by `usageLogApi.query`/`queryModelStats`:
`baseUrl || null` and `period || "daily"` (falsy strings demoted). -/
def usageInvokeArgs (apiKey : String) (baseUrl period : Option String) :
    InvokeArgs :=
  { apiKey := apiKey
    baseUrl := match baseUrl with
      | some b => if b = "" then none else some b
      | none => none
    period := match period with
      | some p => if p = "" then "daily" else p
      | none => "daily" }

/-- `usageLogApi.query` (usageLog.ts, lines 83-101): the `invoke` collaborator
is a parameter; a thrown error (already stringified, since
`typeof e === "string" ? e : String(e)` is `String(e)` in both branches) is
converted into a failure result. -/
def usageQuery (invokeFn : InvokeArgs → Except String UsageLogResult)
    (apiKey : String) (baseUrl period : Option String) : UsageLogResult :=
  match invokeFn (usageInvokeArgs apiKey baseUrl period) with
  | Except.ok r => r
  | Except.error e => { success := false, data := none, error := some e }

/-- `usageLogApi.queryModelStats` (usageLog.ts, lines 104-122). -/
def usageQueryModelStats (invokeFn : InvokeArgs → Except String ModelStatsResult)
    (apiKey : String) (baseUrl period : Option String) : ModelStatsResult :=
  match invokeFn (usageInvokeArgs apiKey baseUrl period) with
  | Except.ok r => r
  | Except.error e =>
    { success := false, data := none, period := none, error := some e }

/-- The keyword sets of the spec's `filterModelsForApp` contract: `none`
means "keep all" (unknown appId). -/
def specKeywords (appId : String) : Option (List String) :=
  if appId = "claude" then some ["claude", "anthropic", "sonnet", "opus", "haiku"]
  else if appId = "codex" then some ["gpt", "o1", "o3", "o4"]
  else if appId = "gemini" then some ["gemini"]
  else none

/-- The spec's filter predicate: case-insensitive substring match of the model
identifier against the appId's keyword set; everything kept otherwise. -/
def specKeep (appId : String) (m : ModelStatsItem) : Bool :=
  match specKeywords appId with
  | some kws => kws.any (fun kw => strIncludes (strToLower m.model) kw)
  | none => true

/-- `v.key` read as text: the string when the property is a string, the empty
string otherwise (the `typeof x === "string" ? x : ""` idiom). -/
def strField (v : JsonVal) (key : String) : String :=
  match jsGet v key with
  | some (JsonVal.str s) => s
  | _ => ""

/-- `typeof x === "string"` on an optional property value. -/
def isStrVal : Option JsonVal → Bool
  | some (JsonVal.str _) => true
  | _ => false

/-- The component-wise sums the spec prescribes for `aggregatePeriodUsage`. -/
def periodUsageSums (l : List ModelStatsItem) : PeriodUsage :=
  { requests := (l.map (fun m => m.requests)).sum
    inputTokens := (l.map (fun m => m.inputTokens)).sum
    outputTokens := (l.map (fun m => m.outputTokens)).sum
    cacheCreateTokens := (l.map (fun m => m.cacheCreateTokens)).sum
    cacheReadTokens := (l.map (fun m => m.cacheReadTokens)).sum
    allTokens := (l.map (fun m => m.allTokens)).sum
    cost := (l.map (fun m => m.costs.total)).sum }

/-- Sample per-model record (the spec's opus example row). -/
def mA : ModelStatsItem :=
  { model := "claude-3-opus", requests := 10, inputTokens := 100
    outputTokens := 50, cacheCreateTokens := 0, cacheReadTokens := 0
    allTokens := 150
    costs := { input := 1, output := 1/2, cacheWrite := 0, cacheRead := 0, total := 3/2 }
    formatted := { input := "100", output := "50", cacheWrite := "0", cacheRead := "0", total := "$1.50" }
    pricing := { input := 0, output := 0, cacheWrite := 0, cacheRead := 0 } }

/-- Sample per-model record (the spec's gpt-4o example row). -/
def mB : ModelStatsItem :=
  { model := "gpt-4o", requests := 5, inputTokens := 20
    outputTokens := 10, cacheCreateTokens := 1, cacheReadTokens := 2
    allTokens := 33
    costs := { input := 1/4, output := 1/4, cacheWrite := 0, cacheRead := 0, total := 1/2 }
    formatted := { input := "20", output := "10", cacheWrite := "1", cacheRead := "2", total := "$0.50" }
    pricing := { input := 0, output := 0, cacheWrite := 0, cacheRead := 0 } }

/-- Sample settings blob: an already-parsed object with `env` and `auth`. -/
def sampleEnvFields : List (String × JsonVal) :=
  [("GEMINI_API_KEY", JsonVal.str "gk"), ("ANTHROPIC_API_KEY", JsonVal.str "ak")]

/-- Sample parsed provider config. -/
def sampleConfig : JsonVal :=
  JsonVal.obj
    [("env", JsonVal.obj sampleEnvFields),
     ("auth", JsonVal.obj [("OPENAI_API_KEY", JsonVal.str "ok")])]

/-- Sample provider carrying `sampleConfig` as its settings. -/
def sampleProvider : Provider :=
  { name := "p", websiteUrl := none, settingsConfig := some sampleConfig }

/-- A parse function that always fails (used where the parse is never reached
or must fail). -/
def failParse : String → Option JsonVal := fun _ => none

/-- A failed overview result, as returned by the wrapper on a thrown call. -/
def sampleFailResult : UsageLogResult :=
  { success := false, data := none, error := some "boom" }

/-- A successful per-model result carrying one item. -/
def sampleOkStats : ModelStatsResult :=
  { success := true, data := some [mA], period := some "daily", error := none }

/-- The panel's initial query state. -/
def idleState : QueryState :=
  { isLoading := false, result := none, modelStats := none }

/-- Characterization of the `periodUsage` reducer: folding from any
accumulator adds the component-wise sums of the list. -/
theorem periodUsage_foldl (l : List ModelStatsItem) (acc : PeriodUsage) :
    l.foldl periodUsageStep acc =
      { requests := acc.requests + (l.map (fun m => m.requests)).sum
        inputTokens := acc.inputTokens + (l.map (fun m => m.inputTokens)).sum
        outputTokens := acc.outputTokens + (l.map (fun m => m.outputTokens)).sum
        cacheCreateTokens :=
          acc.cacheCreateTokens + (l.map (fun m => m.cacheCreateTokens)).sum
        cacheReadTokens :=
          acc.cacheReadTokens + (l.map (fun m => m.cacheReadTokens)).sum
        allTokens := acc.allTokens + (l.map (fun m => m.allTokens)).sum
        cost := acc.cost + (l.map (fun m => m.costs.total)).sum } := by
  induction l generalizing acc with
  | nil => simp
  | cons h t ih =>
    simp only [List.foldl_cons, ih, periodUsageStep, List.map_cons,
      List.sum_cons, add_assoc]

/-- Claim C2: `periodUsage` returns `none` on the empty list, the
component-wise sums (requests, the four token counters, allTokens, total
cost) on any non-empty list, and on a singleton exactly that item's fields. -/
theorem periodUsage_spec :
    periodUsage [] = none ∧
    (∀ l : List ModelStatsItem, l ≠ [] →
      periodUsage l = some (periodUsageSums l)) ∧
    (∀ m : ModelStatsItem,
      periodUsage [m] = some
        { requests := m.requests, inputTokens := m.inputTokens
          outputTokens := m.outputTokens
          cacheCreateTokens := m.cacheCreateTokens
          cacheReadTokens := m.cacheReadTokens, allTokens := m.allTokens
          cost := m.costs.total }) := by
  refine ⟨rfl, ?_, ?_⟩
  · intro l hl
    have hlen : 0 < l.length := List.length_pos.mpr hl
    simp [periodUsage, hlen, periodUsage_foldl, periodUsageZero,
      periodUsageSums]
  · intro m
    simp [periodUsage, periodUsage_foldl, periodUsageZero, periodUsageStep]

/-- Witness for C2 at the sample item. -/
theorem periodUsage_spec_witness :
    periodUsage [mA] = some (periodUsageSums [mA]) :=
  periodUsage_spec.2.1 [mA] (List.cons_ne_nil mA [])

/-- Claim C7: `periodUsage` is invariant under permutation of its input. -/
theorem periodUsage_perm (l l' : List ModelStatsItem) (hp : l.Perm l') :
    periodUsage l = periodUsage l' := by
  have h1 := (hp.map (fun m => m.requests)).sum_eq
  have h2 := (hp.map (fun m => m.inputTokens)).sum_eq
  have h3 := (hp.map (fun m => m.outputTokens)).sum_eq
  have h4 := (hp.map (fun m => m.cacheCreateTokens)).sum_eq
  have h5 := (hp.map (fun m => m.cacheReadTokens)).sum_eq
  have h6 := (hp.map (fun m => m.allTokens)).sum_eq
  have h7 := (hp.map (fun m => m.costs.total)).sum_eq
  unfold periodUsage
  rw [hp.length_eq, periodUsage_foldl, periodUsage_foldl, h1, h2, h3, h4, h5,
    h6, h7]

/-- Witness for C7: swapping the two sample items leaves the aggregate
unchanged. -/
theorem periodUsage_perm_witness :
    periodUsage [mA, mB] = periodUsage [mB, mA] :=
  periodUsage_perm [mA, mB] [mB, mA] (List.Perm.swap mB mA [])

/-- Claim C8: the app filter is idempotent for a fixed appId. -/
theorem filterModelsForApp_idem (l : List ModelStatsItem) (appId : String) :
    filterModelsForApp (filterModelsForApp l appId) appId =
      filterModelsForApp l appId := by
  unfold filterModelsForApp
  rw [List.filter_filter]
  simp

/-- Claim C3: the app filter keeps exactly the items whose lowercased model
identifier contains one of the appId's keywords (everything for an unknown
appId), preserving the input order (the result is a sublist of the input). -/
theorem filterModelsForApp_spec (l : List ModelStatsItem) (appId : String) :
    filterModelsForApp l appId = l.filter (specKeep appId) ∧
    (filterModelsForApp l appId).Sublist l := by
  have hpred : appKeep appId = specKeep appId := by
    funext m
    unfold appKeep specKeep specKeywords
    by_cases h1 : appId = "claude"
    · simp [h1, List.any_cons, List.any_nil, Bool.or_assoc]
    · by_cases h2 : appId = "codex"
      · simp [h1, h2, List.any_cons, List.any_nil, Bool.or_assoc]
      · by_cases h3 : appId = "gemini"
        · simp [h1, h2, h3, List.any_cons, List.any_nil]
        · simp [h1, h2, h3]
  constructor
  · unfold filterModelsForApp
    rw [hpred]
  · exact List.filter_sublist l

/-- Claim C1: for a provider whose (non-falsy) settings payload resolves to a
config carrying an `env` mapping, `extractApiKey` returns: for gemini, the
`GEMINI_API_KEY` entry of `env` read as text; for codex, the `OPENAI_API_KEY`
entry of the config's `auth` mapping (defaulting to empty) read as text; for
every other appId, `ANTHROPIC_AUTH_TOKEN` when it is a string, else
`ANTHROPIC_API_KEY` read as text. -/
theorem extractApiKey_per_kind (parseJson : String → Option JsonVal)
    (p : Provider) (sc config : JsonVal) (e : List (String × JsonVal))
    (hsc : p.settingsConfig = some sc) (hf : jsFalsy sc = false)
    (hcfg : resolveConfig parseJson sc = some config)
    (henv : jsGet config "env" = some (JsonVal.obj e)) :
    extractApiKey parseJson (some p) "gemini" =
      strField (JsonVal.obj e) "GEMINI_API_KEY" ∧
    extractApiKey parseJson (some p) "codex" =
      strField (jsGetOr config "auth") "OPENAI_API_KEY" ∧
    (∀ appId : String, appId ≠ "gemini" → appId ≠ "codex" →
      extractApiKey parseJson (some p) appId =
        if isStrVal (jsGet (JsonVal.obj e) "ANTHROPIC_AUTH_TOKEN") then
          strField (JsonVal.obj e) "ANTHROPIC_AUTH_TOKEN"
        else
          strField (JsonVal.obj e) "ANTHROPIC_API_KEY") := by
  have henv' : jsGetOr config "env" = JsonVal.obj e := by
    unfold jsGetOr
    rw [henv]
  refine ⟨?_, ?_, ?_⟩
  · simp only [extractApiKey, hsc, hf, Bool.false_eq_true, if_false, hcfg,
      henv', strField]
    simp
  · simp only [extractApiKey, hsc, hf, Bool.false_eq_true, if_false, hcfg,
      henv', strField]
    simp
  · intro appId hg hc
    simp only [extractApiKey, hsc, hf, Bool.false_eq_true, if_false, hcfg,
      henv', if_neg hg, if_neg hc]
    cases hv : jsGet (JsonVal.obj e) "ANTHROPIC_AUTH_TOKEN" with
    | none => simp [hv, strField, isStrVal]
    | some v => cases v <;> simp [hv, strField, isStrVal]

/-- Witness for C1 at the sample provider whose settings object holds env and
auth mappings. -/
theorem extractApiKey_per_kind_witness :
    extractApiKey failParse (some sampleProvider) "gemini" = "gk" ∧
    extractApiKey failParse (some sampleProvider) "codex" = "ok" ∧
    extractApiKey failParse (some sampleProvider) "claude" = "ak" := by
  have h := extractApiKey_per_kind failParse sampleProvider sampleConfig
    sampleConfig sampleEnvFields rfl rfl rfl rfl
  refine ⟨?_, ?_, ?_⟩
  · rw [h.1]
    rfl
  · rw [h.2.1]
    rfl
  · rw [h.2.2 "claude" (by decide) (by decide)]
    rfl

/-- Claim C4: `extractApiKey` is a total function returning a string for every
input, and it returns the empty string when the provider is absent, has no
settings payload, or has a text payload the parse rejects. -/
theorem extractApiKey_total (parseJson : String → Option JsonVal) :
    (∀ appId, extractApiKey parseJson none appId = "") ∧
    (∀ (p : Provider) appId, p.settingsConfig = none →
      extractApiKey parseJson (some p) appId = "") ∧
    (∀ (p : Provider) (s : String) appId,
      p.settingsConfig = some (JsonVal.str s) → parseJson s = none →
      extractApiKey parseJson (some p) appId = "") := by
  refine ⟨fun _ => rfl, ?_, ?_⟩
  · intro p appId h
    simp [extractApiKey, h]
  · intro p s appId h hp
    by_cases hs : s = ""
    · subst hs
      simp [extractApiKey, h, jsFalsy]
    · simp [extractApiKey, h, jsFalsy, hs, resolveConfig, hp]

/-- Witness for C4: absent provider, settings-free provider, and a provider
whose text payload fails to parse, all yield the empty string. -/
theorem extractApiKey_total_witness :
    extractApiKey failParse none "claude" = "" ∧
    extractApiKey failParse
      (some { name := "q", websiteUrl := none, settingsConfig := none })
      "claude" = "" ∧
    extractApiKey failParse
      (some { name := "q", websiteUrl := none
              settingsConfig := some (JsonVal.str "not json") })
      "claude" = "" :=
  ⟨(extractApiKey_total failParse).1 "claude",
   (extractApiKey_total failParse).2.1 _ "claude" rfl,
   (extractApiKey_total failParse).2.2 _ "not json" "claude" rfl rfl⟩

/-- Counterexample to claim C5 as stated: `calcProgress` is not always in
[0,100] — a negative `current` passes the falsy guard and survives the `min`
clamp, so `calcProgress(-5, 100) = -5`. -/
theorem calcProgress_cex :
    calcProgress (some (-5)) (some 100) = -5 ∧
    ¬(0 ≤ calcProgress (some (-5)) (some 100)) := by
  have h : calcProgress (some (-5)) (some 100) = -5 := by
    rw [calcProgress]
    rw [if_neg (by norm_num), if_neg (by norm_num)]
    rw [min_eq_left (by norm_num)]
    norm_num
  exact ⟨h, by rw [h]; norm_num⟩

/-- Claim C5 (amended): `calcProgress` returns 0 when either argument is
absent or zero and `min(current/limit*100, 100)` otherwise; the result lies
in [0,100] whenever both arguments are nonnegative; and the spec's three
examples hold. -/
theorem calcProgress_spec :
    (∀ l, calcProgress none l = 0) ∧
    (∀ c, calcProgress c none = 0) ∧
    (∀ l, calcProgress (some 0) l = 0) ∧
    (∀ c, calcProgress c (some 0) = 0) ∧
    (∀ c l : ℚ, c ≠ 0 → l ≠ 0 →
      calcProgress (some c) (some l) = min (c / l * 100) 100) ∧
    (∀ c l : ℚ, 0 ≤ c → 0 ≤ l →
      0 ≤ calcProgress (some c) (some l) ∧
        calcProgress (some c) (some l) ≤ 100) ∧
    calcProgress (some 80) (some 100) = 80 ∧
    calcProgress (some 150) (some 100) = 100 ∧
    calcProgress (some 5) (some 0) = 0 := by
  refine ⟨fun l => rfl, ?_, ?_, ?_, ?_, ?_, ?_, ?_, ?_⟩
  · intro c
    cases c <;> rfl
  · intro l
    cases l <;> rfl
  · intro c
    cases c with
    | none => rfl
    | some q =>
      rw [calcProgress]
      by_cases h : q = 0
      · rw [if_pos h]
      · rw [if_neg h, if_pos rfl]
  · intro c l hc hl
    rw [calcProgress, if_neg hc, if_neg hl]
  · intro c l hc hl
    rw [calcProgress]
    by_cases h0 : c = 0
    · rw [if_pos h0]
      norm_num
    · rw [if_neg h0]
      by_cases h1 : l = 0
      · rw [if_pos h1]
        norm_num
      · rw [if_neg h1]
        have hc' : 0 < c := lt_of_le_of_ne hc (Ne.symm h0)
        have hl' : 0 < l := lt_of_le_of_ne hl (Ne.symm h1)
        constructor
        · exact le_min (by positivity) (by norm_num)
        · exact min_le_right _ _
  · rw [calcProgress, if_neg (by norm_num), if_neg (by norm_num)]
    rw [min_eq_left (by norm_num)]
    norm_num
  · rw [calcProgress, if_neg (by norm_num), if_neg (by norm_num)]
    rw [min_eq_right (by norm_num)]
  · rfl

/-- Witness for the amended C5 at (80, 100). -/
theorem calcProgress_spec_witness :
    calcProgress (some 80) (some 100) = min ((80 : ℚ) / 100 * 100) 100 ∧
    (0 ≤ calcProgress (some (80 : ℚ)) (some 100) ∧
      calcProgress (some (80 : ℚ)) (some 100) ≤ 100) :=
  ⟨calcProgress_spec.2.2.2.2.1 80 100 (by norm_num) (by norm_num),
   calcProgress_spec.2.2.2.2.2.1 80 100 (by norm_num) (by norm_num)⟩

/-- Counterexample to claim C6 as stated: when the overview call returns
`success = false` without rejecting while the per-model call succeeds,
`handleQuery` stores both records as received — the error branch is shown,
yet the per-model results are not cleared. -/
theorem handleQuery_cex :
    errorShown (handleQuery "k"
      (FetchOutcome.resolved sampleFailResult sampleOkStats) idleState) =
        true ∧
    (handleQuery "k"
      (FetchOutcome.resolved sampleFailResult sampleOkStats)
        idleState).modelStats = some sampleOkStats ∧
    sampleOkStats.success = true ∧
    sampleOkStats.data = some [mA] ∧
    (handleQuery "k"
      (FetchOutcome.resolved sampleFailResult sampleOkStats)
        idleState).modelStats ≠ none := by
  have hk : strTrim "k" = "k" := by decide
  have hq : handleQuery "k"
      (FetchOutcome.resolved sampleFailResult sampleOkStats) idleState =
      { isLoading := false, result := some sampleFailResult
        modelStats := some sampleOkStats } := by
    rw [handleQuery, if_neg (by rw [hk]; decide)]
  refine ⟨?_, ?_, rfl, rfl, ?_⟩
  · rw [hq]
    rfl
  · rw [hq]
  · rw [hq]
    simp

/-- Claim C6 (amended): if the combined fetch promise rejects, `handleQuery`
stores a failure overview carrying the stringified cause and clears the
per-model results; if both wrapped calls resolve, the two returned records
are stored exactly as received — an overview with `success = false` makes the
error branch render (but the stored per-model record is retained), and the
error and data branches are mutually exclusive in the view. -/
theorem handleQuery_failure (apiKey : String) (h : strTrim apiKey ≠ "") :
    (∀ e st, handleQuery apiKey (FetchOutcome.rejected e) st =
      { isLoading := false
        result := some { success := false, data := none, error := some e }
        modelStats := none }) ∧
    (∀ u m st, handleQuery apiKey (FetchOutcome.resolved u m) st =
      { isLoading := false, result := some u, modelStats := some m }) ∧
    (∀ u m st, u.success = false →
      errorShown (handleQuery apiKey (FetchOutcome.resolved u m) st) =
        true) ∧
    (∀ st, errorShown st = true → dataShown st = false) := by
  refine ⟨?_, ?_, ?_, ?_⟩
  · intro e st
    rw [handleQuery, if_neg h]
  · intro u m st
    rw [handleQuery, if_neg h]
  · intro u m st hu
    rw [handleQuery, if_neg h]
    simp [errorShown, hu]
  · intro st hs
    rcases st with ⟨load, res, ms⟩
    cases load
    · cases res with
      | none => simp [errorShown] at hs
      | some r =>
        simp [errorShown] at hs
        simp [dataShown, hs]
    · simp [errorShown] at hs

/-- Witness for the amended C6: a rejected fetch clears both results under a
non-blank key. -/
theorem handleQuery_failure_witness :
    handleQuery "k" (FetchOutcome.rejected "boom") idleState =
      { isLoading := false
        result := some { success := false, data := none, error := some "boom" }
        modelStats := none } :=
  (handleQuery_failure "k" (by decide)).1 "boom" idleState

/-- Claim C9: `formatTokens` renders absent as "-", values of at least one
million (and exactly representable in a double, i.e. below 2^53) as the
double quotient by 1e6 rendered by `toFixed` with two decimals plus an "M"
suffix, values of at least one thousand as the quotient by 1e3 with one
decimal plus a "K" suffix, and smaller values as the plain integer; the
spec's three examples come out as "1.50M", "2.5K" and "500", and the
renderings follow the double's value at decimal ties: 1150 gives "1.1K" and
1005000 gives "1.00M" (the stored quotients lie just below 1.15 and 1.005). -/
theorem formatTokens_spec :
    formatTokens none = "-" ∧
    (∀ v : Nat, 1000000 ≤ v → v < 2 ^ 53 →
      formatTokens (some v) = fixed2 v 1000000 ++ "M") ∧
    (∀ v : Nat, 1000 ≤ v → v < 1000000 →
      formatTokens (some v) = fixed1 v 1000 ++ "K") ∧
    (∀ v : Nat, v < 1000 → formatTokens (some v) = toString v) ∧
    formatTokens (some 1500000) = "1.50M" ∧
    formatTokens (some 2500) = "2.5K" ∧
    formatTokens (some 500) = "500" ∧
    formatTokens (some 1150) = "1.1K" ∧
    formatTokens (some 1005000) = "1.00M" := by
  refine ⟨rfl, ?_, ?_, ?_, by decide, by decide, by decide, by decide,
    by decide⟩
  · intro v hv _
    rw [formatTokens, if_pos hv]
  · intro v hv hv'
    rw [formatTokens, if_neg (by omega), if_pos hv]
  · intro v hv
    rw [formatTokens, if_neg (by omega), if_neg (by omega)]

/-- Witness for C9 at the three branch representatives. -/
theorem formatTokens_spec_witness :
    formatTokens (some 1500000) = fixed2 1500000 1000000 ++ "M" ∧
    formatTokens (some 2500) = fixed1 2500 1000 ++ "K" ∧
    formatTokens (some 999) = toString 999 :=
  ⟨formatTokens_spec.2.1 1500000 (by omega) (by omega),
   formatTokens_spec.2.2.1 2500 (by omega) (by omega),
   formatTokens_spec.2.2.2.1 999 (by omega)⟩

/-- Claim C10: the `usageLogApi` wrappers never raise — whatever the
underlying invocation does, they return its result record on success and a
`success = false` record carrying the stringified exception on a throw — and
an omitted period argument is passed to the invocation as "daily". -/
theorem usageLogApi_spec (invQ : InvokeArgs → Except String UsageLogResult)
    (invM : InvokeArgs → Except String ModelStatsResult)
    (apiKey : String) (baseUrl period : Option String) :
    (∀ r, invQ (usageInvokeArgs apiKey baseUrl period) = Except.ok r →
      usageQuery invQ apiKey baseUrl period = r) ∧
    (∀ e, invQ (usageInvokeArgs apiKey baseUrl period) = Except.error e →
      usageQuery invQ apiKey baseUrl period =
        { success := false, data := none, error := some e }) ∧
    (∀ r, invM (usageInvokeArgs apiKey baseUrl period) = Except.ok r →
      usageQueryModelStats invM apiKey baseUrl period = r) ∧
    (∀ e, invM (usageInvokeArgs apiKey baseUrl period) = Except.error e →
      usageQueryModelStats invM apiKey baseUrl period =
        { success := false, data := none, period := none, error := some e }) ∧
    (usageInvokeArgs apiKey baseUrl none).period = "daily" := by
  refine ⟨?_, ?_, ?_, ?_, rfl⟩
  · intro r h
    rw [usageQuery, h]
  · intro e h
    rw [usageQuery, h]
  · intro r h
    rw [usageQueryModelStats, h]
  · intro e h
    rw [usageQueryModelStats, h]

/-- Witness for C10: a throwing invocation yields the failure record, and the
omitted period defaults to "daily". -/
theorem usageLogApi_spec_witness :
    usageQuery (fun _ => Except.error "net down") "k" none none =
      { success := false, data := none, error := some "net down" } ∧
    usageQueryModelStats (fun _ => Except.error "net down") "k" none none =
      { success := false, data := none, period := none
        error := some "net down" } ∧
    (usageInvokeArgs "k" none none).period = "daily" :=
  ⟨(usageLogApi_spec (fun _ => Except.error "net down")
      (fun _ => Except.error "net down") "k" none none).2.1 "net down" rfl,
   (usageLogApi_spec (fun _ => Except.error "net down")
      (fun _ => Except.error "net down") "k" none none).2.2.2.1 "net down"
        rfl,
   (usageLogApi_spec (fun _ => Except.error "net down")
      (fun _ => Except.error "net down") "k" none none).2.2.2.2⟩
